import Mathlib

/-!
Shallow embedding of the async dataset-collection workflow of the
`luminati-io/zillow-scraper` repository, covering the two collector classes
`ZillowDiscoverPropertiesCollector` (src/zillow_api_scraper/zillow_discovered_properties.py)
and `ZillowPropertiesCollector` (src/zillow_api_scraper/zillow_properties.py).

HTTP exchanges are modelled by their classified outcomes (network-level
failure, non-2xx response that `raise_for_status` turns into an `HTTPError`,
or a 2xx response carrying a parsed JSON body).  JSON objects are association
lists of string key/value pairs; result records are such objects as well.
The unbounded polling loops are given trace semantics: the loop consumes a
finite list of per-iteration status-request outcomes, and an exhausted trace
means the loop is still polling (no return value yet).
-/

set_option autoImplicit false

namespace ZillowScraper

/-- A JSON object body, as an association list (Python dicts preserve
insertion order and have unique keys). -/
abbrev Json := List (String × String)

/-- One input filter record (`Dict[str, str]` in the source). -/
abbrev Filter := List (String × String)

/-- One fetched result record (`Dict[str, Any]` in the source, opaque to the
core workflow). -/
abbrev ResultRecord := List (String × String)

/-- `d.get(k)` on a Python dict modelled as an association list. -/
def alookup (k : String) : List (String × String) → Option String
  | [] => none
  | (k', v) :: rest => if k' = k then some v else alookup k rest

/-- Classified outcome of a single HTTP exchange, as seen through the
`requests` library: a transport-level `RequestException`, a non-2xx response
(which `raise_for_status` raises as `HTTPError`, itself a subclass of
`RequestException`), or a 2xx response with JSON body `body`. -/
inductive HttpOutcome (β : Type) where
  | netFail
  | httpErr (code : Nat)
  | ok (body : β)
deriving DecidableEq, Repr

/-- `_fetch_data` (identical in both collector classes): one GET of the
snapshot; any `RequestException` (including `HTTPError` from
`raise_for_status`) is caught and yields `None`, otherwise `response.json()`
is returned. -/
def fetch_data : HttpOutcome (List ResultRecord) → Option (List ResultRecord)
  | .netFail => none
  | .httpErr _ => none
  | .ok body => some body

/-- Truthiness of `v.strip()` in Python: the stripped string is non-empty
exactly when `v` contains some non-whitespace character. -/
def stripTruthy (s : String) : Bool :=
  s.data.any fun c => !c.isWhitespace

/-- An opaque Python exception value. -/
inductive PyExc where
  | exc (msg : String)
deriving DecidableEq, Repr

namespace ZillowDiscoverProperties

/-- `_clean_filters`: for each input filter, drop every entry whose value is
falsy (`v`) or strips to the empty string (`v.strip()`), then keep the
cleaned filter only when its `location` entry is present and truthy. -/
def clean_filters (filters : List Filter) : List Filter :=
  filters.filterMap fun f =>
    let cf := f.filter fun kv => !(kv.2 == "") && stripTruthy kv.2
    match alookup "location" cf with
    | none => none
    | some v => if v = "" then none else some cf

/-- Result of `_trigger_collection`: the returned JSON (or `None`), the
sequence of `time.sleep` durations performed, and the number of HTTP trigger
calls made. -/
structure TriggerResult where
  resp : Option Json
  sleeps : List Nat
  attempts : Nat
deriving DecidableEq, Repr

/-- The body of `_trigger_collection`'s `for attempt in range(3)` loop,
starting at attempt index `attempt` with `fuel` loop iterations remaining.
On HTTP 429 it sleeps `2 ** (attempt + 1)` and continues (also after the
final attempt); on any other `HTTPError` it returns `None` at once; on a
transport-level `RequestException` it returns `None` if `attempt == 2` and
otherwise sleeps 1 and continues; falling off the loop returns `None`. -/
def triggerFrom (t : Nat → HttpOutcome Json) : Nat → Nat → TriggerResult
  | 0, _ => ⟨none, [], 0⟩
  | fuel + 1, attempt =>
    match t attempt with
    | .ok j => ⟨some j, [], 1⟩
    | .httpErr code =>
      if code = 429 then
        let w := 2 ^ (attempt + 1)
        let r := triggerFrom t fuel (attempt + 1)
        ⟨r.resp, w :: r.sleeps, r.attempts + 1⟩
      else ⟨none, [], 1⟩
    | .netFail =>
      if attempt = 2 then ⟨none, [], 1⟩
      else
        let r := triggerFrom t fuel (attempt + 1)
        ⟨r.resp, 1 :: r.sleeps, r.attempts + 1⟩

/-- `_trigger_collection`: three attempts starting at attempt 0. -/
def trigger_collection (t : Nat → HttpOutcome Json) : TriggerResult :=
  triggerFrom t 3 0

/-- `_check_status`: a `RequestException` (including `HTTPError` raised by
`raise_for_status`) yields the string `"error"`; a 2xx response yields
`response.json().get("status", "unknown")`. -/
def check_status : HttpOutcome Json → String
  | .netFail => "error"
  | .httpErr _ => "error"
  | .ok body => (alookup "status" body).getD "unknown"

/-- How `_monitor_collection` exits, with the index of the exiting loop
iteration: via the `"ready"` branch (returning `_fetch_data`'s result), via
the `"failed"`/`"error"` branch (returning `None`), or not at all within the
observed trace (the loop is still polling). -/
inductive MonitorResult where
  | fetched (i : Nat) (data : Option (List ResultRecord))
  | failedAt (i : Nat)
  | exhausted
deriving DecidableEq, Repr

/-- The `while True` loop of `_monitor_collection`, iterating over a trace of
status-request outcomes, with `i` the index of the current iteration.
`fetch` is the value `_fetch_data` would return when called. -/
def monitorAux (fetch : Option (List ResultRecord)) (i : Nat) :
    List (HttpOutcome Json) → MonitorResult
  | [] => .exhausted
  | o :: rest =>
    let status := check_status o
    if status = "ready" then .fetched i fetch
    else if status = "failed" ∨ status = "error" then .failedAt i
    else monitorAux fetch (i + 1) rest

/-- `_monitor_collection` over a trace of status-request outcomes. -/
def monitor_collection (fetch : Option (List ResultRecord))
    (trace : List (HttpOutcome Json)) : MonitorResult :=
  monitorAux fetch 0 trace

/-- The external behaviour one `collect_properties` run is exposed to: the
outcome of each trigger attempt, the trace of status-request outcomes, the
outcome of the (single) snapshot fetch, and whether `_save_data` raises. -/
structure Env where
  transport : Nat → HttpOutcome Json
  statusTrace : List (HttpOutcome Json)
  fetchOutcome : HttpOutcome (List ResultRecord)
  saveRaises : Bool

/-- Observable summary of one `collect_properties` run: the returned boolean
and how many trigger / fetch / save calls were made. -/
structure RunStats where
  success : Bool
  triggerCalls : Nat
  fetchCalls : Nat
  saveCalls : Nat
deriving DecidableEq, Repr

/-- `collect_properties` of `ZillowDiscoverPropertiesCollector`, with trace
semantics: `none` means the polling loop consumed the whole status trace
without reaching a terminal status (the run is still polling). -/
def collect_properties (filters : List Filter) (env : Env) : Option RunStats :=
  let cleaned := clean_filters filters
  if cleaned = [] then some ⟨false, 0, 0, 0⟩
  else
    let tr := trigger_collection env.transport
    match tr.resp with
    | none => some ⟨false, tr.attempts, 0, 0⟩
    | some body =>
      if body = [] ∨ alookup "snapshot_id" body = none then
        some ⟨false, tr.attempts, 0, 0⟩
      else
        match monitor_collection (fetch_data env.fetchOutcome) env.statusTrace with
        | .exhausted => none
        | .failedAt _ => some ⟨false, tr.attempts, 0, 0⟩
        | .fetched _ data =>
          match data with
          | none => some ⟨false, tr.attempts, 1, 0⟩
          | some l =>
            if l = [] then some ⟨false, tr.attempts, 1, 0⟩
            else if env.saveRaises then some ⟨false, tr.attempts, 1, 1⟩
            else some ⟨true, tr.attempts, 1, 1⟩

/-- A file system, mapping a path to the result-set value serialized there
(serialization by `json.dump` is deterministic, so file contents are
identified with the written value). -/
abbrev Fs := String → Option (List ResultRecord)

/-- Whether `_save_data` returned normally or re-raised an exception. -/
inductive SaveResult where
  | ok
  | raised
deriving DecidableEq, Repr

/-- `_save_data` of `ZillowDiscoverPropertiesCollector`: when `backup` is on
and the destination exists, rename it to `f"{filename}.bak_{timestamp}"`
first; then write `data` to `filename`.  An `OSError` from `os.rename` or an
`IOError` from the write is caught, logged at error level, and re-raised
(`raise`), leaving the file system as the failing call left it. -/
def save_data (backup : Bool) (timestamp : String) (renameFails writeFails : Bool)
    (data : List ResultRecord) (filename : String) (fs : Fs) : Fs × SaveResult :=
  if backup && (fs filename).isSome then
    if renameFails then (fs, .raised)
    else
      let backupName := filename ++ ".bak_" ++ timestamp
      let fs1 : Fs := fun p =>
        if p = filename then none
        else if p = backupName then fs filename
        else fs p
      if writeFails then (fs1, .raised)
      else ((fun p => if p = filename then some data else fs1 p), .ok)
  else
    if writeFails then (fs, .raised)
    else ((fun p => if p = filename then some data else fs p), .ok)

/-- The internal stages `collect_properties` sequences, each allowed an
arbitrary behaviour including raising: this quantifies the orchestration
boundary over every stage behaviour. -/
structure Stages where
  cleanStage : List Filter → Except PyExc (List Filter)
  triggerStage : List Filter → Except PyExc (Option Json)
  monitorStage : String → Except PyExc (Option (List ResultRecord))
  saveStage : List ResultRecord → String → Except PyExc Unit

/-- The `try` body of `collect_properties` (lines 47-75 of
zillow_discovered_properties.py), with the stage calls abstracted: clean,
fail-fast on an empty cleaned set, trigger, require a `snapshot_id` field,
monitor, fail on a falsy result set, save, return `True`. -/
def run_body (st : Stages) (filters : List Filter) (outputFile : String) :
    Except PyExc Bool :=
  match st.cleanStage filters with
  | .error e => .error e
  | .ok cleaned =>
    if cleaned = [] then .ok false
    else
      match st.triggerStage cleaned with
      | .error e => .error e
      | .ok none => .ok false
      | .ok (some body) =>
        if body = [] then .ok false
        else
          match alookup "snapshot_id" body with
          | none => .ok false
          | some sid =>
            match st.monitorStage sid with
            | .error e => .error e
            | .ok none => .ok false
            | .ok (some l) =>
              if l = [] then .ok false
              else
                match st.saveStage l outputFile with
                | .error e => .error e
                | .ok _ => .ok true

/-- `collect_properties` as a whole: the `try` body wrapped in
`except Exception: return False`. -/
def run (st : Stages) (filters : List Filter) (outputFile : String) : Bool :=
  match run_body st filters outputFile with
  | .ok b => b
  | .error _ => false

end ZillowDiscoverProperties

namespace ZillowProperties

/-- `_check_status` of `ZillowPropertiesCollector`: a `RequestException`
yields the string `"error"`; a 2xx response yields
`response.json().get("status")`, which is `None` when the field is absent. -/
def check_status : HttpOutcome Json → Option String
  | .netFail => some "error"
  | .httpErr _ => some "error"
  | .ok body => alookup "status" body

/-- `_trigger_collection` of `ZillowPropertiesCollector`: a single POST with
no retries; any `RequestException` yields `None`. -/
def trigger_collection : HttpOutcome Json → Option Json
  | .netFail => none
  | .httpErr _ => none
  | .ok j => some j

/-- How the `while True` loop of `collect_properties` exits: returning `True`
at iteration `i` (after a truthy fetch), returning `None` at iteration `i`
(on a `"failed"`/`"error"` status), or consuming the whole trace while still
polling.  `fetchCalls` counts the `_fetch_data` invocations made. -/
inductive LoopResult where
  | succeeded (i : Nat) (fetchCalls : Nat)
  | failedNone (i : Nat) (fetchCalls : Nat)
  | exhausted (fetchCalls : Nat)
deriving DecidableEq, Repr

/-- The `while True` loop of `collect_properties`, over a trace of
status-request outcomes; `fetchO` gives the outcome of the `n`-th
`_fetch_data` call.  On `"ready"` the loop fetches and returns `True` only
when the fetched data is truthy (non-`None` and non-empty), otherwise it
keeps polling; `last_status` is updated to the current status in the
status-changed branch and already equals it otherwise. -/
def collectLoop (fetchO : Nat → HttpOutcome (List ResultRecord)) :
    List (HttpOutcome Json) → Option String → Nat → Nat → LoopResult
  | [], _, _, fc => .exhausted fc
  | o :: rest, lastStatus, i, fc =>
    let status := check_status o
    if status ≠ lastStatus ∧ (status = some "failed" ∨ status = some "error") then
      .failedNone i fc
    else if status = some "ready" then
      match fetch_data (fetchO fc) with
      | some l =>
        if l = [] then collectLoop fetchO rest status (i + 1) (fc + 1)
        else .succeeded i (fc + 1)
      | none => collectLoop fetchO rest status (i + 1) (fc + 1)
    else if status = some "failed" ∨ status = some "error" then .failedNone i fc
    else collectLoop fetchO rest status (i + 1) fc

/-- The external behaviour one `ZillowPropertiesCollector.collect_properties`
run is exposed to. -/
structure Env where
  trigger : HttpOutcome Json
  statusTrace : List (HttpOutcome Json)
  fetchO : Nat → HttpOutcome (List ResultRecord)

/-- Result of `ZillowPropertiesCollector.collect_properties`: early `None`
when triggering fails or the response lacks `snapshot_id`, otherwise the
polling loop's exit. -/
inductive RunResult where
  | triggerFailed
  | loopExit (r : LoopResult)
deriving DecidableEq, Repr

/-- `collect_properties` of `ZillowPropertiesCollector` over a trace. -/
def collect_properties (env : Env) : RunResult :=
  match trigger_collection env.trigger with
  | none => .triggerFailed
  | some body =>
    if body = [] ∨ alookup "snapshot_id" body = none then .triggerFailed
    else .loopExit (collectLoop env.fetchO env.statusTrace none 0 0)

/-- Outcome of `_save_data` in `ZillowPropertiesCollector`: the write either
succeeded, or its exception was caught by the method's `except Exception`
handler and only logged — the method never re-raises. -/
inductive SaveOutcome where
  | saved
  | loggedError (e : PyExc)
deriving DecidableEq, Repr

/-- The internal stages of `ZillowPropertiesCollector.collect_properties`
under exception-transparent semantics, each allowed an arbitrary behaviour
including raising (a raising stage is one whose own internal handlers did
not cover the fault); `writeStage` is the body of the `try` inside
`_save_data` (the file write). -/
structure Stages where
  triggerStage : Except PyExc (Option Json)
  statusStage : Nat → Except PyExc (Option String)
  fetchStage : Nat → Except PyExc (Option (List ResultRecord))
  writeStage : List ResultRecord → Except PyExc Unit

/-- `_save_data` of `ZillowPropertiesCollector` (zillow_properties.py lines
113-122): the write is wrapped in `try ... except Exception` whose handler
only logs the error and does not re-raise, so the method returns normally
whatever the write did. -/
def save_data (st : Stages) (data : List ResultRecord) : SaveOutcome :=
  match st.writeStage data with
  | .ok _ => .saved
  | .error e => .loggedError e

/-- How `ZillowPropertiesCollector.collect_properties` comes back when no
exception escapes: returning `None` (a falsy failure), returning `True`
(recording what `_save_data` did with the write), or still polling when the
examined iterations run out. -/
inductive RunOutcomeE where
  | retNone
  | retTrue (save : SaveOutcome)
  | stillPolling
deriving DecidableEq, Repr

/-- The `while True` loop of `ZillowPropertiesCollector.collect_properties`
under exception-transparent semantics: the method installs no handler, so an
exception from the status or fetch stage propagates out of the entry point;
`fuel` bounds how many loop iterations are examined.  After a truthy fetch
the loop calls `_save_data` — which swallows write failures — and returns
`True` unconditionally. -/
def collect_loopE (st : Stages) : Nat → Option String → Nat → Nat →
    Except PyExc RunOutcomeE
  | 0, _, _, _ => .ok .stillPolling
  | fuel + 1, last, i, fc =>
    match st.statusStage i with
    | .error e => .error e
    | .ok status =>
      if status ≠ last ∧ (status = some "failed" ∨ status = some "error") then
        .ok .retNone
      else if status = some "ready" then
        match st.fetchStage fc with
        | .error e => .error e
        | .ok (some l) =>
          if l = [] then collect_loopE st fuel status (i + 1) (fc + 1)
          else .ok (.retTrue (save_data st l))
        | .ok none => collect_loopE st fuel status (i + 1) (fc + 1)
      else if status = some "failed" ∨ status = some "error" then .ok .retNone
      else collect_loopE st fuel status (i + 1) fc

/-- `collect_properties` of `ZillowPropertiesCollector` (zillow_properties.py
lines 28-64) under exception-transparent stage semantics.  Unlike the
discover collector there is no `try/except` around the body, so a stage
exception escapes the top-level entry point. -/
def collect_propertiesE (st : Stages) (fuel : Nat) : Except PyExc RunOutcomeE :=
  match st.triggerStage with
  | .error e => .error e
  | .ok none => .ok .retNone
  | .ok (some body) =>
    if body = [] ∨ alookup "snapshot_id" body = none then .ok .retNone
    else collect_loopE st fuel none 0 0

end ZillowProperties


end ZillowScraper

namespace ZillowScraper

namespace ZillowDiscoverProperties

/-- An observation on which `_monitor_collection` keeps polling. -/
def nonterminalObs (o : HttpOutcome Json) : Prop :=
  check_status o ≠ "ready" ∧ check_status o ≠ "failed" ∧ check_status o ≠ "error"

instance (o : HttpOutcome Json) : Decidable (nonterminalObs o) := by
  unfold nonterminalObs; infer_instance

lemma monitorAux_cons_ready (fetch : Option (List ResultRecord))
    {o : HttpOutcome Json} (rest : List (HttpOutcome Json)) (i : Nat)
    (h : check_status o = "ready") :
    monitorAux fetch i (o :: rest) = .fetched i fetch := by
  simp [monitorAux, h]

lemma monitorAux_cons_failed (fetch : Option (List ResultRecord))
    {o : HttpOutcome Json} (rest : List (HttpOutcome Json)) (i : Nat)
    (h : check_status o = "failed" ∨ check_status o = "error") :
    monitorAux fetch i (o :: rest) = .failedAt i := by
  rcases h with h | h <;> simp [monitorAux, h]

lemma monitorAux_cons_nonterminal (fetch : Option (List ResultRecord))
    {o : HttpOutcome Json} (rest : List (HttpOutcome Json)) (i : Nat)
    (h : nonterminalObs o) :
    monitorAux fetch i (o :: rest) = monitorAux fetch (i + 1) rest := by
  obtain ⟨h1, h2, h3⟩ := h
  simp [monitorAux, h1, h2, h3]

lemma monitorAux_append (fetch : Option (List ResultRecord))
    (pre rest : List (HttpOutcome Json)) (h : ∀ p ∈ pre, nonterminalObs p) :
    ∀ i, monitorAux fetch i (pre ++ rest) = monitorAux fetch (i + pre.length) rest := by
  induction pre with
  | nil => intro i; simp
  | cons p pre ih =>
    intro i
    have hrec := ih (fun q hq => h q (List.mem_cons_of_mem p hq)) (i + 1)
    have harith : i + 1 + pre.length = i + (p :: pre).length := by
      simp [List.length_cons]; omega
    rw [harith] at hrec
    rw [List.cons_append,
      monitorAux_cons_nonterminal fetch _ i (h p (List.mem_cons_self p pre)), hrec]

lemma monitorAux_fetched (fetch : Option (List ResultRecord)) :
    ∀ (trace : List (HttpOutcome Json)) (i j : Nat) (d : Option (List ResultRecord)),
      monitorAux fetch i trace = .fetched j d →
      d = fetch ∧ i ≤ j ∧
        ∃ q, trace.get? (j - i) = some q ∧ check_status q = "ready" := by
  intro trace
  induction trace with
  | nil => intro i j d h; simp [monitorAux] at h
  | cons o rest ih =>
    intro i j d h
    by_cases hr : check_status o = "ready"
    · rw [monitorAux_cons_ready fetch rest i hr] at h
      obtain ⟨hij, hd⟩ := MonitorResult.fetched.inj h
      exact ⟨hd.symm, le_of_eq hij, o, by simp [← hij], hr⟩
    · by_cases hf : check_status o = "failed" ∨ check_status o = "error"
      · rw [monitorAux_cons_failed fetch rest i hf] at h
        exact absurd h (by simp)
      · push_neg at hf
        have hnt : nonterminalObs o := ⟨hr, hf.1, hf.2⟩
        rw [monitorAux_cons_nonterminal fetch rest i hnt] at h
        obtain ⟨hd, hij, q, hq, hready⟩ := ih (i + 1) j d h
        refine ⟨hd, by omega, q, ?_, hready⟩
        have : j - i = (j - (i + 1)) + 1 := by omega
        rw [this]
        simpa using hq

lemma alookup_location_filter_none (f : Filter)
    (h : ∀ kv ∈ f, kv.1 = "location" → stripTruthy kv.2 = false) :
    alookup "location" (f.filter fun kv => !(kv.2 == "") && stripTruthy kv.2) = none := by
  induction f with
  | nil => rfl
  | cons kv rest ih =>
    have hrec := ih fun q hq hk => h q (List.mem_cons_of_mem kv hq) hk
    by_cases hp : (!(kv.2 == "") && stripTruthy kv.2) = true
    · have hst : stripTruthy kv.2 = true := (Bool.and_eq_true _ _ ▸ hp).2
      have hk : kv.1 ≠ "location" := by
        intro hk
        rw [h kv (List.mem_cons_self kv rest) hk] at hst
        exact Bool.false_ne_true hst
      simp [List.filter_cons, hp, alookup, hk, hrec]
    · simp [List.filter_cons, hp, hrec]

lemma clean_filters_eq_nil (filters : List Filter)
    (h : ∀ f ∈ filters, ∀ kv ∈ f, kv.1 = "location" → stripTruthy kv.2 = false) :
    clean_filters filters = [] := by
  induction filters with
  | nil => rfl
  | cons f rest ih =>
    have hrec := ih fun g hg => h g (List.mem_cons_of_mem f hg)
    have hf := alookup_location_filter_none f (h f (List.mem_cons_self f rest))
    simp [clean_filters, List.filterMap_cons, hf]
    simpa [clean_filters] using hrec

lemma collect_properties_failedAt (filters : List Filter) (env : Env) (k : Nat)
    (hm : monitor_collection (fetch_data env.fetchOutcome) env.statusTrace = .failedAt k) :
    ∃ tc, collect_properties filters env = some ⟨false, tc, 0, 0⟩ := by
  unfold collect_properties
  by_cases hc : clean_filters filters = []
  · exact ⟨0, by simp [hc]⟩
  · simp only [hc, if_false]
    cases htr : (trigger_collection env.transport).resp with
    | none => exact ⟨(trigger_collection env.transport).attempts, by simp [htr]⟩
    | some body =>
      by_cases hb : body = [] ∨ alookup "snapshot_id" body = none
      · exact ⟨(trigger_collection env.transport).attempts, by simp [htr, hb]⟩
      · exact ⟨(trigger_collection env.transport).attempts, by simp [htr, hb, hm]⟩

lemma collect_properties_fetched_falsy (filters : List Filter) (env : Env)
    (j : Nat) (d : Option (List ResultRecord))
    (hm : monitor_collection (fetch_data env.fetchOutcome) env.statusTrace = .fetched j d)
    (hd : ∀ l, d = some l → l = []) :
    ∃ tc fc, collect_properties filters env = some ⟨false, tc, fc, 0⟩ := by
  unfold collect_properties
  by_cases hc : clean_filters filters = []
  · exact ⟨0, 0, by simp [hc]⟩
  · simp only [hc, if_false]
    cases htr : (trigger_collection env.transport).resp with
    | none => exact ⟨(trigger_collection env.transport).attempts, 0, by simp [htr]⟩
    | some body =>
      by_cases hb : body = [] ∨ alookup "snapshot_id" body = none
      · exact ⟨(trigger_collection env.transport).attempts, 0, by simp [htr, hb]⟩
      · cases d with
        | none =>
          exact ⟨(trigger_collection env.transport).attempts, 1, by simp [htr, hb, hm]⟩
        | some l =>
          have hl : l = [] := hd l rfl
          subst hl
          exact ⟨(trigger_collection env.transport).attempts, 1, by simp [htr, hb, hm]⟩

lemma save_data_write_ok (backup : Bool) (timestamp : String)
    (data : List ResultRecord) (filename : String) (fs : Fs) :
    (save_data backup timestamp false false data filename fs).1 filename = some data ∧
      (save_data backup timestamp false false data filename fs).2 = .ok := by
  unfold save_data
  by_cases hb : (backup && (fs filename).isSome) = true
  · simp [hb]
  · simp [hb]

lemma bak_name_ne (filename timestamp : String) :
    filename ++ ".bak_" ++ timestamp ≠ filename := by
  intro h
  have hlen := congrArg String.length h
  rw [String.length_append, String.length_append] at hlen
  have h5 : String.length ".bak_" = 5 := by decide
  omega

lemma monitorAux_failedBefore (fetch : Option (List ResultRecord)) :
    ∀ (pre : List (HttpOutcome Json)) (o : HttpOutcome Json)
      (rest : List (HttpOutcome Json)) (i : Nat),
      (∀ p ∈ pre, check_status p ≠ "ready") →
      (check_status o = "failed" ∨ check_status o = "error") →
      ∃ k, monitorAux fetch i (pre ++ o :: rest) = .failedAt k := by
  intro pre
  induction pre with
  | nil =>
    intro o rest i _ h2
    exact ⟨i, monitorAux_cons_failed fetch rest i h2⟩
  | cons p pre ih =>
    intro o rest i h1 h2
    by_cases hf : check_status p = "failed" ∨ check_status p = "error"
    · exact ⟨i, by rw [List.cons_append, monitorAux_cons_failed fetch _ i hf]⟩
    · push_neg at hf
      have hnt : nonterminalObs p :=
        ⟨h1 p (List.mem_cons_self p pre), hf.1, hf.2⟩
      obtain ⟨k, hk⟩ :=
        ih o rest (i + 1) (fun q hq => h1 q (List.mem_cons_of_mem p hq)) h2
      exact ⟨k, by rw [List.cons_append, monitorAux_cons_nonterminal fetch _ i hnt, hk]⟩

/-- The `try/except Exception` boundary of
`ZillowDiscoverPropertiesCollector.collect_properties`: a raised stage
exception becomes the boolean result `False`, and `True` implies every stage
succeeded end-to-end. -/
lemma run_boundary_discover :
    ∀ (st : Stages) (filters : List Filter) (out : String),
      (∀ e, run_body st filters out = .error e → run st filters out = false) ∧
      (run st filters out = true →
        ∃ cleaned body sid data,
          st.cleanStage filters = .ok cleaned ∧ cleaned ≠ [] ∧
          st.triggerStage cleaned = .ok (some body) ∧ body ≠ [] ∧
          alookup "snapshot_id" body = some sid ∧
          st.monitorStage sid = .ok (some data) ∧ data ≠ [] ∧
          st.saveStage data out = .ok ()) := by
  intro st filters out
  constructor
  · intro e h
    simp [run, h]
  · intro h
    unfold run at h
    cases hb : run_body st filters out with
    | error e => rw [hb] at h; exact absurd h (by simp)
    | ok b =>
      rw [hb] at h
      simp at h
      subst h
      unfold run_body at hb
      cases hcl : st.cleanStage filters with
      | error e => simp [hcl] at hb
      | ok cleaned =>
        simp only [hcl] at hb
        by_cases hce : cleaned = []
        · simp [hce] at hb
        · rw [if_neg hce] at hb
          cases htr : st.triggerStage cleaned with
          | error e => simp [htr] at hb
          | ok resp =>
            cases resp with
            | none => simp [htr] at hb
            | some body =>
              simp only [htr] at hb
              by_cases hbe : body = []
              · simp [hbe] at hb
              · rw [if_neg hbe] at hb
                cases hsid : alookup "snapshot_id" body with
                | none => simp [hsid] at hb
                | some sid =>
                  simp only [hsid] at hb
                  cases hmon : st.monitorStage sid with
                  | error e => simp [hmon] at hb
                  | ok dataOpt =>
                    cases dataOpt with
                    | none => simp [hmon] at hb
                    | some l =>
                      simp only [hmon] at hb
                      by_cases hle : l = []
                      · simp [hle] at hb
                      · rw [if_neg hle] at hb
                        cases hsv : st.saveStage l out with
                        | error e => simp [hsv] at hb
                        | ok u =>
                          cases u
                          exact ⟨cleaned, body, sid, l, rfl, hce, htr, hbe,
                            hsid, hmon, hle, hsv⟩

end ZillowDiscoverProperties

namespace ZillowProperties

lemma collectLoop_cons_error (fetchO : Nat → HttpOutcome (List ResultRecord))
    {o : HttpOutcome Json} (rest : List (HttpOutcome Json))
    (last : Option String) (i fc : Nat) (h : check_status o = some "error") :
    collectLoop fetchO (o :: rest) last i fc = .failedNone i fc := by
  simp only [collectLoop, h]
  by_cases hl : (some "error" : Option String) = last
  · subst hl; simp
  · simp [hl]

lemma collectLoop_succeeded_ready (fetchO : Nat → HttpOutcome (List ResultRecord)) :
    ∀ (trace : List (HttpOutcome Json)) (last : Option String) (i fc j fc' : Nat),
      collectLoop fetchO trace last i fc = .succeeded j fc' →
      i ≤ j ∧ ∃ q, trace.get? (j - i) = some q ∧ check_status q = some "ready" := by
  intro trace
  induction trace with
  | nil => intro last i fc j fc' h; simp [collectLoop] at h
  | cons o rest ih =>
    intro last i fc j fc' h
    simp only [collectLoop] at h
    split at h
    · simp at h
    · split at h
      · rename_i hready
        split at h
        · rename_i l hl
          split at h
          · obtain ⟨hij, q, hq, hr⟩ := ih _ (i + 1) (fc + 1) j fc' h
            refine ⟨by omega, q, ?_, hr⟩
            have harith : j - i = (j - (i + 1)) + 1 := by omega
            rw [harith]
            simpa using hq
          · obtain ⟨hij, _⟩ := LoopResult.succeeded.inj h
            exact ⟨le_of_eq hij, o, by simp [← hij], hready⟩
        · obtain ⟨hij, q, hq, hr⟩ := ih _ (i + 1) (fc + 1) j fc' h
          refine ⟨by omega, q, ?_, hr⟩
          have harith : j - i = (j - (i + 1)) + 1 := by omega
          rw [harith]
          simpa using hq
      · split at h
        · simp at h
        · obtain ⟨hij, q, hq, hr⟩ := ih _ (i + 1) fc j fc' h
          refine ⟨by omega, q, ?_, hr⟩
          have harith : j - i = (j - (i + 1)) + 1 := by omega
          rw [harith]
          simpa using hq

end ZillowProperties

end ZillowScraper

section Claims

open ZillowScraper ZillowScraper.ZillowDiscoverProperties

/-- C1 (counterexample): the claim says a transport-level failure during a
status check is recorded as the non-terminal status `unknown` and polling
continues.  In the code, `_check_status` maps a `RequestException` to the
string `"error"`, which is a terminal-failure status: the polling loop exits
with failure on that very iteration, so a single transport failure is
surfaced as a failure of the whole run. -/
theorem C1_transport_failure_poll_counterexample :
    check_status (.netFail : HttpOutcome Json) = "error" ∧
    check_status (.netFail : HttpOutcome Json) ≠ "unknown" ∧
    monitor_collection (some [[("zpid", "1")]]) [.netFail] = .failedAt 0 := by
  decide

/-- C1 (amended): in both collectors a transport-level failure during a
status check is recorded as the status `"error"`, a terminal-failure value,
so the polling loop exits with failure on that iteration; only a successful
status response whose body lacks the `status` field is recorded as
`"unknown"` (in `ZillowDiscoverPropertiesCollector`), which is non-terminal
and lets polling continue to the next iteration. -/
theorem C1_transport_failure_poll_amended :
    ∀ (fetch : Option (List ResultRecord)) (trace : List (HttpOutcome Json)) (i : Nat),
      check_status (.netFail : HttpOutcome Json) = "error" ∧
      monitorAux fetch i (.netFail :: trace) = .failedAt i ∧
      (∀ body : Json, alookup "status" body = none →
        check_status (.ok body) = "unknown" ∧
        monitorAux fetch i ((.ok body) :: trace) = monitorAux fetch (i + 1) trace) ∧
      ZillowProperties.check_status (.netFail : HttpOutcome Json) = some "error" ∧
      (∀ (fetchO : Nat → HttpOutcome (List ResultRecord)) (last : Option String) (fc : Nat),
        ZillowProperties.collectLoop fetchO (.netFail :: trace) last i fc =
          .failedNone i fc) := by
  intro fetch trace i
  refine ⟨rfl, monitorAux_cons_failed fetch trace i (Or.inr rfl), ?_, rfl, ?_⟩
  · intro body hb
    refine ⟨by simp [check_status, hb], ?_⟩
    exact monitorAux_cons_nonterminal fetch trace i
      (by simp [nonterminalObs, check_status, hb])
  · intro fetchO last fc
    exact ZillowProperties.collectLoop_cons_error fetchO trace last i fc rfl

/-- C1 (witness): the amended theorem applied at a concrete status body
lacking the `status` field. -/
theorem C1_transport_failure_poll_witness :
    check_status (.ok [("foo", "bar")] : HttpOutcome Json) = "unknown" ∧
    monitorAux (some []) 0 ((.ok [("foo", "bar")]) :: [.ok [("status", "queued")]]) =
      monitorAux (some []) 1 [.ok [("status", "queued")]] :=
  (C1_transport_failure_poll_amended (some []) [.ok [("status", "queued")]] 0).2.2.1
    [("foo", "bar")] (by decide)

/-- C2 (counterexample): in `ZillowPropertiesCollector.collect_properties`,
after observing `ready` (iteration 0) with a fetch that fails at the
transport level, the run does not terminate with failure: the loop keeps
polling, observes `ready` again at iteration 1, retries the fetch (two fetch
calls in total) and returns success. -/
theorem C2_fetch_failure_terminal_counterexample :
    ZillowProperties.check_status (.ok [("status", "ready")] : HttpOutcome Json) =
      some "ready" ∧
    fetch_data (.netFail : HttpOutcome (List ResultRecord)) = none ∧
    ZillowProperties.collect_properties
      ⟨.ok [("snapshot_id", "s1")],
       [.ok [("status", "ready")], .ok [("status", "ready")]],
       fun n => if n = 0 then .netFail else .ok [[("zpid", "1")]]⟩
      = .loopExit (.succeeded 1 2) := by
  decide

/-- C2 (amended): in `ZillowDiscoverPropertiesCollector` a fetch that fails
after the poller observes `ready` is terminal for the run: the monitor exits
at the `ready` observation (no further polling), exactly one fetch is made,
the run returns failure, and the sink is never invoked.  In
`ZillowPropertiesCollector`, by contrast, a failed fetch is not terminal:
the loop continues polling and may retry the fetch (see the
counterexample). -/
theorem C2_fetch_failure_terminal_amended :
    ∀ (filters : List Filter) (transport : Nat → HttpOutcome Json) (saveRaises : Bool)
      (pre : List (HttpOutcome Json)) (o : HttpOutcome Json)
      (rest : List (HttpOutcome Json)),
      (∀ p ∈ pre, nonterminalObs p) → check_status o = "ready" →
      monitor_collection (fetch_data .netFail) (pre ++ o :: rest) =
        .fetched pre.length none ∧
      ∃ tc fc,
        collect_properties filters ⟨transport, pre ++ o :: rest, .netFail, saveRaises⟩ =
          some ⟨false, tc, fc, 0⟩ := by
  intro filters transport saveRaises pre o rest hpre hready
  have hm : monitor_collection (fetch_data (.netFail : HttpOutcome (List ResultRecord)))
      (pre ++ o :: rest) = .fetched pre.length none := by
    unfold monitor_collection
    rw [monitorAux_append _ pre _ hpre 0, monitorAux_cons_ready _ rest _ hready]
    simp [fetch_data]
  refine ⟨hm, ?_⟩
  exact collect_properties_fetched_falsy filters
    ⟨transport, pre ++ o :: rest, .netFail, saveRaises⟩ pre.length none hm
    (fun l hl => by simp at hl)

/-- C2 (witness): the amended theorem applied at a concrete trace with one
non-terminal observation before `ready`. -/
theorem C2_fetch_failure_terminal_witness :
    monitor_collection (fetch_data .netFail)
      ([.ok [("status", "queued")]] ++ (.ok [("status", "ready")] : HttpOutcome Json) :: []) =
      .fetched 1 none ∧
    ∃ tc fc,
      collect_properties [[("location", "92027")]]
        ⟨fun _ => .ok [("snapshot_id", "s1")],
         [.ok [("status", "queued")]] ++ (.ok [("status", "ready")] : HttpOutcome Json) :: [],
         .netFail, false⟩ = some ⟨false, tc, fc, 0⟩ :=
  C2_fetch_failure_terminal_amended [[("location", "92027")]]
    (fun _ => .ok [("snapshot_id", "s1")]) false
    [.ok [("status", "queued")]] (.ok [("status", "ready")]) []
    (by decide) (by decide)

/-- C3 (counterexample): against a transport that reports HTTP 429 on every
call, `_trigger_collection` does make exactly 3 attempts and return `None`,
but the observed backoff delays are `[2, 4, 8]`, not `[2, 4]`: a delay of
`2 ^ 3` time units is also slept after the final attempt, before the failure
is returned. -/
theorem C3_rate_limit_retry_counterexample :
    trigger_collection (fun _ => .httpErr 429) = ⟨none, [2, 4, 8], 3⟩ ∧
    ([2, 4, 8] : List Nat) ≠ [2, 4] := by
  decide

/-- C3 (amended): against a transport reporting `RateLimited` (HTTP 429) on
every call, `_trigger_collection` makes exactly 3 attempts and returns a
submission failure (`None`); the backoff delays are `2 ^ 1` and `2 ^ 2` time
units between attempts, plus an additional `2 ^ 3` delay after the final
attempt before the failure is returned. -/
theorem C3_rate_limit_retry_amended :
    ∀ t : Nat → HttpOutcome Json, (∀ n, t n = .httpErr 429) →
      trigger_collection t = ⟨none, [2 ^ 1, 2 ^ 2, 2 ^ 3], 3⟩ := by
  intro t h
  have h0 := h 0
  have h1 := h 1
  have h2 := h 2
  simp [trigger_collection, triggerFrom, h0, h1, h2]

/-- C3 (witness): the amended theorem applied to the always-429 transport. -/
theorem C3_rate_limit_retry_witness :
    trigger_collection (fun _ => .httpErr 429) = ⟨none, [2 ^ 1, 2 ^ 2, 2 ^ 3], 3⟩ :=
  C3_rate_limit_retry_amended (fun _ => .httpErr 429) (fun _ => rfl)


/-- C4: when every record's `location` field is absent, empty, or
whitespace-only, `_clean_filters` empties the input set and
`collect_properties` fails fast, returning `False` with zero trigger calls
(no network request), zero fetch calls and zero save calls. -/
theorem C4_no_valid_inputs_no_transport :
    ∀ (filters : List Filter) (env : Env),
      (∀ f ∈ filters, ∀ kv ∈ f, kv.1 = "location" → stripTruthy kv.2 = false) →
      clean_filters filters = [] ∧
      collect_properties filters env = some ⟨false, 0, 0, 0⟩ := by
  intro filters env h
  have hc := clean_filters_eq_nil filters h
  exact ⟨hc, by simp [collect_properties, hc]⟩

/-- C4 (witness): a concrete input list with a whitespace-only, an absent,
and an empty `location`, against a transport that would succeed. -/
theorem C4_no_valid_inputs_no_transport_witness :
    clean_filters
      [[("location", "   "), ("HomeType", "Houses")],
       [("listingCategory", "x")],
       [("location", "")]] = [] ∧
    collect_properties
      [[("location", "   "), ("HomeType", "Houses")],
       [("listingCategory", "x")],
       [("location", "")]]
      ⟨fun _ => .ok [("snapshot_id", "s1")], [.ok [("status", "ready")]],
       .ok [[("zpid", "1")]], false⟩ = some ⟨false, 0, 0, 0⟩ :=
  C4_no_valid_inputs_no_transport _ _ (by decide)

/-- C5: for every status trace ending in `ready` with no earlier terminal
observation, `_monitor_collection` exits with success exactly at (and only
after) the `ready` observation; moreover, in either collector, any
success-exit of the polling loop happens on an iteration whose observed
status is `ready` — never on `queued`, `running` or `unknown`. -/
theorem C5_poll_success_only_on_ready :
    ∀ (fetch : Option (List ResultRecord)) (pre : List (HttpOutcome Json))
      (o : HttpOutcome Json),
      (∀ p ∈ pre, nonterminalObs p) → check_status o = "ready" →
      monitor_collection fetch (pre ++ [o]) = .fetched pre.length fetch ∧
      (∀ (trace : List (HttpOutcome Json)) (i : Nat) (d : Option (List ResultRecord)),
        monitor_collection fetch trace = .fetched i d →
        d = fetch ∧ ∃ q, trace.get? i = some q ∧ check_status q = "ready") ∧
      (∀ (fetchO : Nat → HttpOutcome (List ResultRecord))
        (trace : List (HttpOutcome Json)) (j fc : Nat),
        ZillowProperties.collectLoop fetchO trace none 0 0 = .succeeded j fc →
        ∃ q, trace.get? j = some q ∧ ZillowProperties.check_status q = some "ready") := by
  intro fetch pre o hpre hready
  refine ⟨?_, ?_, ?_⟩
  · unfold monitor_collection
    rw [monitorAux_append fetch pre _ hpre 0, monitorAux_cons_ready fetch _ _ hready]
    simp
  · intro trace i d h
    obtain ⟨hd, _, q, hq, hr⟩ := monitorAux_fetched fetch trace 0 i d h
    exact ⟨hd, q, by simpa using hq, hr⟩
  · intro fetchO trace j fc h
    obtain ⟨_, q, hq, hr⟩ :=
      ZillowProperties.collectLoop_succeeded_ready fetchO trace none 0 0 j fc h
    exact ⟨q, by simpa using hq, hr⟩

/-- C5 (witness): a concrete trace `queued, running, ready` exits with
success exactly at index 2, the `ready` observation. -/
theorem C5_poll_success_only_on_ready_witness :
    monitor_collection (some [[("zpid", "1")]])
      ([.ok [("status", "queued")], .ok [("status", "running")]] ++
        [.ok [("status", "ready")]]) = .fetched 2 (some [[("zpid", "1")]]) :=
  (C5_poll_success_only_on_ready (some [[("zpid", "1")]])
    [.ok [("status", "queued")], .ok [("status", "running")]]
    (.ok [("status", "ready")]) (by decide) (by decide)).1

/-- C6: for every status trace containing a `failed` or `error` observation
before any `ready`, the monitor exits with failure, and the whole run
reports failure with zero fetch calls and zero save calls — the Result
Fetcher and the Result Sink are never invoked. -/
theorem C6_failed_before_ready_no_fetch_no_sink :
    ∀ (filters : List Filter) (transport : Nat → HttpOutcome Json)
      (fetchOutcome : HttpOutcome (List ResultRecord)) (saveRaises : Bool)
      (pre : List (HttpOutcome Json)) (o : HttpOutcome Json)
      (rest : List (HttpOutcome Json)),
      (∀ p ∈ pre, check_status p ≠ "ready") →
      (check_status o = "failed" ∨ check_status o = "error") →
      ∃ k tc,
        monitor_collection (fetch_data fetchOutcome) (pre ++ o :: rest) = .failedAt k ∧
        collect_properties filters ⟨transport, pre ++ o :: rest, fetchOutcome, saveRaises⟩ =
          some ⟨false, tc, 0, 0⟩ := by
  intro filters transport fo sr pre o rest h1 h2
  obtain ⟨k, hk⟩ := monitorAux_failedBefore (fetch_data fo) pre o rest 0 h1 h2
  obtain ⟨tc, htc⟩ :=
    collect_properties_failedAt filters ⟨transport, pre ++ o :: rest, fo, sr⟩ k hk
  exact ⟨k, tc, hk, htc⟩

/-- C6 (witness): a concrete trace `queued, failed, ready` — the run fails
and neither fetch nor save happens, even though a later `ready` follows. -/
theorem C6_failed_before_ready_no_fetch_no_sink_witness :
    ∃ k tc,
      monitor_collection (fetch_data (.ok [[("zpid", "1")]]))
        ([.ok [("status", "queued")]] ++
          (.ok [("status", "failed")] : HttpOutcome Json) :: [.ok [("status", "ready")]]) =
        .failedAt k ∧
      collect_properties [[("location", "92027")]]
        ⟨fun _ => .ok [("snapshot_id", "s1")],
         [.ok [("status", "queued")]] ++
           (.ok [("status", "failed")] : HttpOutcome Json) :: [.ok [("status", "ready")]],
         .ok [[("zpid", "1")]], false⟩ = some ⟨false, tc, 0, 0⟩ :=
  C6_failed_before_ready_no_fetch_no_sink [[("location", "92027")]]
    (fun _ => .ok [("snapshot_id", "s1")]) (.ok [[("zpid", "1")]]) false
    [.ok [("status", "queued")]] (.ok [("status", "failed")]) [.ok [("status", "ready")]]
    (by decide) (by decide)

/-- C7 (counterexample): with backups enabled and an existing destination,
when the backup rename fails `_save_data` does not write the new results:
the destination keeps its prior content and the call re-raises (the failure
is surfaced at error level and as an exception, not as a warning-only
observation beside a successful write). -/
theorem C7_backup_failure_nonfatal_counterexample :
    (save_data true "20240101_000000" true false [[("new", "2")]] "out.json"
      (fun p => if p = "out.json" then some [[("old", "1")]] else none)).2 = .raised ∧
    (save_data true "20240101_000000" true false [[("new", "2")]] "out.json"
      (fun p => if p = "out.json" then some [[("old", "1")]] else none)).1 "out.json"
      = some [[("old", "1")]] ∧
    (some [[("old", "1")]] : Option (List ResultRecord)) ≠ some [[("new", "2")]] := by
  decide

/-- C7 (amended): with backups enabled and an existing destination, a
failure of the backup rename is fatal to the write: `_save_data` leaves the
file system unchanged and re-raises, so the new results are not written and
the run fails (the cause is logged at error level, not surfaced as a
warning-level observation beside a successful write). -/
theorem C7_backup_failure_nonfatal_amended :
    ∀ (timestamp : String) (writeFails : Bool) (data : List ResultRecord)
      (filename : String) (fs : Fs),
      (fs filename).isSome = true →
      save_data true timestamp true writeFails data filename fs = (fs, .raised) := by
  intro ts wf data fn fs h
  unfold save_data
  simp [h]

/-- C7 (witness): the amended theorem applied at a concrete file system in
which the destination exists. -/
theorem C7_backup_failure_nonfatal_witness :
    save_data true "t" true false [[("new", "2")]] "out"
      (fun p => if p = "out" then some [[("old", "1")]] else none)
    = ((fun p => if p = "out" then some [[("old", "1")]] else none), .raised) :=
  C7_backup_failure_nonfatal_amended "t" false [[("new", "2")]] "out" _ (by decide)

/-- C8: persisting a first result set and then a second one to the same
destination with backups enabled leaves the `.bak_<timestamp>` sibling (for
the second write's timestamp) holding exactly the first write's content and
the destination holding exactly the second write's content, both calls
returning normally. -/
theorem C8_persist_twice_backup_contents :
    ∀ (fs0 : Fs) (d1 d2 : List ResultRecord) (fn t1 t2 : String),
      (save_data true t2 false false d2 fn
        (save_data true t1 false false d1 fn fs0).1).1 fn = some d2 ∧
      (save_data true t2 false false d2 fn
        (save_data true t1 false false d1 fn fs0).1).1 (fn ++ ".bak_" ++ t2) = some d1 ∧
      (save_data true t1 false false d1 fn fs0).2 = .ok ∧
      (save_data true t2 false false d2 fn
        (save_data true t1 false false d1 fn fs0).1).2 = .ok := by
  intro fs0 d1 d2 fn t1 t2
  obtain ⟨h1, h1ok⟩ := save_data_write_ok true t1 d1 fn fs0
  obtain ⟨h2, h2ok⟩ :=
    save_data_write_ok true t2 d2 fn (save_data true t1 false false d1 fn fs0).1
  have hsome : ((save_data true t1 false false d1 fn fs0).1 fn).isSome = true := by
    rw [h1]; rfl
  refine ⟨h2, ?_, h1ok, h2ok⟩
  have hbak : fn ++ ".bak_" ++ t2 ≠ fn := bak_name_ne fn t2
  conv_lhs => rw [save_data]
  simp [hsome, hbak, h1]

/-- C9 (counterexample): in `ZillowPropertiesCollector.collect_properties`
there is no orchestration-boundary handler: a status stage that raises
propagates its exception out of the entry point instead of yielding a
boolean; and because `_save_data` swallows write failures, a run whose save
raised still returns `True` — a boolean `True` without end-to-end success. -/
theorem C9_orchestration_boundary_counterexample :
    ZillowProperties.collect_propertiesE
      ⟨.ok [("snapshot_id", "s1")], fun _ => .error (.exc "boom"),
       fun _ => .ok none, fun _ => .ok ()⟩ 1 = .error (.exc "boom") ∧
    ZillowProperties.collect_propertiesE
      ⟨.ok [("snapshot_id", "s1")], fun _ => .ok (some "ready"),
       fun _ => .ok (some [[("zpid", "1")]]),
       fun _ => .error (.exc "disk full")⟩ 1
      = .ok (.retTrue (.loggedError (.exc "disk full"))) :=
  ⟨rfl, rfl⟩

/-- C9 (amended): in `ZillowDiscoverPropertiesCollector` the
`try/except Exception` boundary of `collect_properties` catches every stage
fault — an exception becomes the boolean result `False`, and `True` implies
every stage succeeded end-to-end.  In `ZillowPropertiesCollector` there is
no such boundary: an exception from the trigger or status stage propagates
out of `collect_properties` unhandled, and `_save_data` only logs a failed
write, so the loop still returns `True` after a truthy fetch whatever the
write did. -/
theorem C9_orchestration_boundary_amended :
    ∀ (st : Stages) (filters : List Filter) (out : String)
      (stP : ZillowProperties.Stages) (fuel i fc : Nat) (last : Option String)
      (e : PyExc) (l : List ResultRecord),
      (∀ e2, run_body st filters out = .error e2 → run st filters out = false) ∧
      (run st filters out = true →
        ∃ cleaned body sid data,
          st.cleanStage filters = .ok cleaned ∧ cleaned ≠ [] ∧
          st.triggerStage cleaned = .ok (some body) ∧ body ≠ [] ∧
          alookup "snapshot_id" body = some sid ∧
          st.monitorStage sid = .ok (some data) ∧ data ≠ [] ∧
          st.saveStage data out = .ok ()) ∧
      (stP.triggerStage = .error e →
        ZillowProperties.collect_propertiesE stP fuel = .error e) ∧
      (stP.statusStage i = .error e →
        ZillowProperties.collect_loopE stP (fuel + 1) last i fc = .error e) ∧
      (stP.writeStage l = .error e →
        ZillowProperties.save_data stP l = .loggedError e) ∧
      (stP.statusStage i = .ok (some "ready") → stP.fetchStage fc = .ok (some l) →
        l ≠ [] →
        ZillowProperties.collect_loopE stP (fuel + 1) last i fc =
          .ok (.retTrue (ZillowProperties.save_data stP l))) := by
  intro st filters out stP fuel i fc last e l
  refine ⟨(run_boundary_discover st filters out).1,
    (run_boundary_discover st filters out).2, ?_, ?_, ?_, ?_⟩
  · intro h
    simp [ZillowProperties.collect_propertiesE, h]
  · intro h
    simp [ZillowProperties.collect_loopE, h]
  · intro h
    simp [ZillowProperties.save_data, h]
  · intro hs hf hl
    simp [ZillowProperties.collect_loopE, hs, hf, hl]

/-- C9 (witness): the amended theorem applied at a concrete stage set whose
write raises — `_save_data` records a logged error, yet the loop returns
`True`. -/
theorem C9_orchestration_boundary_witness :
    ZillowProperties.save_data
      ⟨.ok [("snapshot_id", "s1")], fun _ => .ok (some "ready"),
       fun _ => .ok (some [[("zpid", "1")]]),
       fun _ => .error (.exc "disk full")⟩ [[("zpid", "1")]]
      = .loggedError (.exc "disk full") ∧
    ZillowProperties.collect_loopE
      ⟨.ok [("snapshot_id", "s1")], fun _ => .ok (some "ready"),
       fun _ => .ok (some [[("zpid", "1")]]),
       fun _ => .error (.exc "disk full")⟩ (0 + 1) none 0 0
      = .ok (.retTrue (ZillowProperties.save_data
          ⟨.ok [("snapshot_id", "s1")], fun _ => .ok (some "ready"),
           fun _ => .ok (some [[("zpid", "1")]]),
           fun _ => .error (.exc "disk full")⟩ [[("zpid", "1")]])) :=
  ⟨(C9_orchestration_boundary_amended
      ⟨fun f => .ok f, fun _ => .ok none, fun _ => .ok none, fun _ _ => .ok ()⟩
      [] "out.json"
      ⟨.ok [("snapshot_id", "s1")], fun _ => .ok (some "ready"),
       fun _ => .ok (some [[("zpid", "1")]]),
       fun _ => .error (.exc "disk full")⟩ 0 0 0 none (.exc "disk full")
      [[("zpid", "1")]]).2.2.2.2.1 rfl,
   (C9_orchestration_boundary_amended
      ⟨fun f => .ok f, fun _ => .ok none, fun _ => .ok none, fun _ _ => .ok ()⟩
      [] "out.json"
      ⟨.ok [("snapshot_id", "s1")], fun _ => .ok (some "ready"),
       fun _ => .ok (some [[("zpid", "1")]]),
       fun _ => .error (.exc "disk full")⟩ 0 0 0 none (.exc "disk full")
      [[("zpid", "1")]]).2.2.2.2.2 rfl rfl (by decide)⟩

/-- C10: when the poller observes `ready` (with no earlier terminal
observation) but the fetched result set is empty, the run returns failure
and the destination is never written (zero save calls) — at the boolean
boundary this is indistinguishable from a fetch failure even though the
remote job succeeded. -/
theorem C10_ready_empty_resultset_failure :
    ∀ (filters : List Filter) (transport : Nat → HttpOutcome Json) (saveRaises : Bool)
      (pre : List (HttpOutcome Json)) (o : HttpOutcome Json)
      (rest : List (HttpOutcome Json)),
      (∀ p ∈ pre, nonterminalObs p) → check_status o = "ready" →
      monitor_collection (fetch_data (.ok [])) (pre ++ o :: rest) =
        .fetched pre.length (some []) ∧
      ∃ tc fc,
        collect_properties filters ⟨transport, pre ++ o :: rest, .ok [], saveRaises⟩ =
          some ⟨false, tc, fc, 0⟩ := by
  intro filters transport sr pre o rest hpre hready
  have hm : monitor_collection (fetch_data (.ok [] : HttpOutcome (List ResultRecord)))
      (pre ++ o :: rest) = .fetched pre.length (some []) := by
    unfold monitor_collection
    rw [monitorAux_append _ pre _ hpre 0, monitorAux_cons_ready _ rest _ hready]
    simp [fetch_data]
  refine ⟨hm, ?_⟩
  exact collect_properties_fetched_falsy filters
    ⟨transport, pre ++ o :: rest, .ok [], sr⟩ pre.length (some []) hm
    (fun l hl => (Option.some.inj hl).symm)

/-- C10 (witness): a concrete run reaching `ready` whose fetch returns the
empty result set — the run fails and nothing is saved. -/
theorem C10_ready_empty_resultset_failure_witness :
    monitor_collection (fetch_data (.ok []))
      ([.ok [("status", "running")]] ++
        (.ok [("status", "ready")] : HttpOutcome Json) :: []) =
      .fetched 1 (some []) ∧
    ∃ tc fc,
      collect_properties [[("location", "92027")]]
        ⟨fun _ => .ok [("snapshot_id", "s1")],
         [.ok [("status", "running")]] ++
           (.ok [("status", "ready")] : HttpOutcome Json) :: [],
         .ok [], false⟩ = some ⟨false, tc, fc, 0⟩ :=
  C10_ready_empty_resultset_failure [[("location", "92027")]]
    (fun _ => .ok [("snapshot_id", "s1")]) false
    [.ok [("status", "running")]] (.ok [("status", "ready")]) []
    (by decide) (by decide)

end Claims
